import Mathlib

/-!
Verification of the magic-link token lifecycle (django-magic-link).

Shallow embedding of `magic_link/models.py`, `magic_link/views.py` and
`magic_link/settings.py`. Timestamps are natural numbers; the ambient
clock (`timezone.now()`) is passed explicitly as a `now` parameter.
Python's `bool | None` return of `has_expired` is `Option Bool`, with
`optBoolTruthy` capturing Python truthiness of such a value.
-/

/-- Error taxonomy from `magic_link/exceptions.py`: `InactiveLink`,
`ExpiredLink` and `UsedLink` all subclass the generic `InvalidLink`. -/
inductive LinkError where
  | InactiveLink
  | ExpiredLink
  | UsedLink
  | InvalidLink
deriving DecidableEq, Repr

/-- Exception message attached to each error at its raise site in
`MagicLink.validate` (models.py lines 106-115). -/
def LinkError.message : LinkError → String
  | .InactiveLink => "Link is inactive"
  | .ExpiredLink => "Link has expired"
  | .UsedLink => "Link has already been used"
  | .InvalidLink => "Link is invalid"

/-- Django's `PermissionDenied`, raised by `MagicLink.authorize`. -/
inductive PermError where
  | PermissionDenied
deriving DecidableEq, Repr

/-- Errors caught by the view handlers: `except (PermissionDenied, InvalidLink)`. -/
inductive ViewError where
  | linkErr (e : LinkError)
  | permErr
deriving DecidableEq, Repr

/-- String form of a caught error, as stored by `audit` via `str(error)`. -/
def ViewError.message : ViewError → String
  | .linkErr e => e.message
  | .permErr => "User is already logged in as another user."

/-- Mutable fields of the `MagicLink` model (models.py lines 41-70).
`user` is kept as an opaque id, `token` is the lookup key and plays no
role in the lifecycle logic, so both are collapsed to `userId`. -/
structure MagicLink where
  userId : Nat
  redirect_to : String
  created_at : Nat
  expires_at : Option Nat
  accessed_at : Option Nat
  logged_in_at : Option Nat
  is_active : Bool
deriving DecidableEq, Repr

/-- Truthiness of a Python `bool | None` value: only `True` is truthy. -/
def optBoolTruthy : Option Bool → Bool
  | some b => b
  | none => false

/-- `has_expired` property (models.py lines 81-86): `expires_at < timezone.now()`
when `expires_at` is set, `None` otherwise. -/
def MagicLink.has_expired (l : MagicLink) (now : Nat) : Option Bool :=
  match l.expires_at with
  | some t => some (decide (t < now))
  | none => none

/-- `has_been_used` property (models.py lines 88-91): `logged_in_at is not None`. -/
def MagicLink.has_been_used (l : MagicLink) : Bool :=
  l.logged_in_at.isSome

/-- `is_valid` property (models.py lines 93-96). -/
def MagicLink.is_valid (l : MagicLink) (now : Nat) : Bool :=
  l.is_active && !optBoolTruthy (l.has_expired now) && !l.has_been_used

/-- `validate` method (models.py lines 98-115), with exceptions as `Except`. -/
def MagicLink.validate (l : MagicLink) (now : Nat) : Except LinkError Unit :=
  if !l.is_active then .error .InactiveLink
  else if optBoolTruthy (l.has_expired now) then .error .ExpiredLink
  else if l.has_been_used then .error .UsedLink
  else if !l.is_valid now then .error .InvalidLink
  else .ok ()

/-- Requesting user (`request.user`): Django's `AnonymousUser` has
`is_authenticated = False`; object equality `user != self.user` is id equality. -/
structure Requester where
  is_authenticated : Bool
  userId : Nat
deriving DecidableEq, Repr

/-- `authorize` method (models.py lines 117-126). -/
def MagicLink.authorize (l : MagicLink) (user : Requester) : Except PermError Unit :=
  if user.is_authenticated && user.userId != l.userId then
    .error .PermissionDenied
  else
    .ok ()

/-- `login` method (models.py lines 128-133): the session-establishment call
is external; the persisted effect is `logged_in_at = timezone.now()`. -/
def MagicLink.login (l : MagicLink) (now : Nat) : MagicLink :=
  { l with logged_in_at := some now }

/-- `disable` method (models.py lines 135-138). -/
def MagicLink.disable (l : MagicLink) : MagicLink :=
  { l with is_active := false }

/-- Request data consumed by `audit` (method, client fingerprint, session key). -/
structure Request where
  http_method : String
  user : Requester
  remote_addr : String
  ua_string : String
  session_key : String
deriving DecidableEq, Repr

/-- One `MagicLinkUse` audit row (models.py lines 168-205). -/
structure MagicLinkUse where
  timestamp : Nat
  http_method : String
  remote_addr : String
  ua_string : String
  session_key : String
  error : String
deriving DecidableEq, Repr

/-- `audit` method (models.py lines 140-165): builds the `MagicLinkUse` row
(with `timestamp or timezone.now()`) and sets `accessed_at` to the row's
timestamp when it is not already set (`if not self.accessed_at`). -/
def MagicLink.audit (l : MagicLink) (req : Request) (error : Option ViewError)
    (timestamp : Option Nat) (now : Nat) : MagicLink × MagicLinkUse :=
  let entry : MagicLinkUse :=
    { timestamp := timestamp.getD now
      http_method := req.http_method
      remote_addr := req.remote_addr
      ua_string := req.ua_string
      session_key := req.session_key
      error := match error with
        | some e => e.message
        | none => "" }
  if l.accessed_at.isNone then
    ({ l with accessed_at := some entry.timestamp }, entry)
  else
    (l, entry)

/-- Observable persistent state: the link row plus its append-only audit log. -/
structure St where
  link : MagicLink
  log : List MagicLinkUse
deriving DecidableEq, Repr

/-- Append the audit row created by `link.audit(...)` to the log. -/
def recordAudit (s : St) (req : Request) (error : Option ViewError)
    (timestamp : Option Nat) (now : Nat) : St :=
  { link := (s.link.audit req error timestamp now).1
    log := s.log ++ [(s.link.audit req error timestamp now).2] }

/-- Outcome surfaced by a view handler. -/
inductive Response where
  | errorPage (error : ViewError)
  | loginPage
  | redirect (target : String)
  | fault
deriving DecidableEq, Repr

/-- `MagicLinkView.get` (views.py lines 16-43). -/
def getView (s : St) (req : Request) (now : Nat) : St × Response :=
  match s.link.validate now with
  | .error e => (recordAudit s req (some (.linkErr e)) none now, .errorPage (.linkErr e))
  | .ok _ =>
    match s.link.authorize req.user with
    | .error _ => (recordAudit s req (some .permErr) none now, .errorPage .permErr)
    | .ok _ => (recordAudit s req none none now, .loginPage)

/-- Failure points inside the consume transaction body. -/
inductive Step where
  | loginStep
  | disableStep
  | auditWriteStep
deriving DecidableEq, Repr

/-- Body of `MagicLinkView.post` (views.py lines 46-75). The `fail` oracle
marks which, if any, of the three consume steps raises an unhandled
exception; `.error ()` then escapes the `@transaction.atomic` block. -/
def postBody (s : St) (req : Request) (now : Nat) (fail : Option Step) :
    Except Unit (St × Response) :=
  match s.link.validate now with
  | .error e => .ok (recordAudit s req (some (.linkErr e)) none now, .errorPage (.linkErr e))
  | .ok _ =>
    match s.link.authorize req.user with
    | .error _ => .ok (recordAudit s req (some .permErr) none now, .errorPage .permErr)
    | .ok _ =>
      if fail = some Step.loginStep then .error () else
      let l1 := s.link.login now
      if fail = some Step.disableStep then .error () else
      let l2 := l1.disable
      if fail = some Step.auditWriteStep then .error () else
      (.ok (recordAudit { link := l2, log := s.log } req none l2.logged_in_at now,
            .redirect s.link.redirect_to))

/-- `MagicLinkView.post` under `@transaction.atomic`: an unhandled exception
rolls every write back, leaving the stored state untouched. -/
def postView (s : St) (req : Request) (now : Nat) (fail : Option Step) : St × Response :=
  match postBody s req now fail with
  | .ok r => r
  | .error _ => (s, .fault)

/-- `DEFAULT_EXPIRY` (settings.py line 12): value used when neither the
environment variable nor the Django setting overrides it. -/
def DEFAULT_EXPIRY : Nat := 60

/-- `DEFAULT_REDIRECT` (settings.py line 16). -/
def DEFAULT_REDIRECT : String := "/"

/-- `link_expires_at` (models.py lines 36-38): `timezone.now() + interval`. -/
def link_expires_at (now : Nat) (interval : Nat) : Nat :=
  now + interval

/-- A `MagicLink` row created with the model-field defaults
(models.py lines 44-70): active, unused, `expires_at = link_expires_at()`. -/
def newMagicLink (userId : Nat) (now : Nat) : MagicLink :=
  { userId := userId
    redirect_to := DEFAULT_REDIRECT
    created_at := now
    expires_at := some (link_expires_at now DEFAULT_EXPIRY)
    accessed_at := none
    logged_in_at := none
    is_active := true }

/-- Initial persistent state for a freshly issued link: empty audit log. -/
def initSt (userId : Nat) (now : Nat) : St :=
  { link := newMagicLink userId now, log := [] }

/-- Core operations that can touch a stored link: the two view handlers,
the explicit `disable` kill switch, and a bare `audit` call. -/
inductive Op where
  | get (req : Request) (now : Nat)
  | post (req : Request) (now : Nat) (fail : Option Step)
  | kill
  | record (req : Request) (error : Option ViewError) (timestamp : Option Nat) (now : Nat)

/-- One core operation applied to the stored state. -/
def stepOp (s : St) : Op → St
  | .get req now => (getView s req now).1
  | .post req now fail => (postView s req now fail).1
  | .kill => { s with link := s.link.disable }
  | .record req e ts now => recordAudit s req e ts now

/-- A sequence of core operations applied in order. -/
def runOps (s : St) (ops : List Op) : St :=
  ops.foldl stepOp s

/-! Helper lemmas shared by the claim theorems. -/

/-- Writing the audit row never changes `logged_in_at`. -/
theorem audit_fst_logged_in_at (l : MagicLink) (req : Request) (e : Option ViewError)
    (ts : Option Nat) (now : Nat) :
    (l.audit req e ts now).1.logged_in_at = l.logged_in_at := by
  unfold MagicLink.audit
  by_cases h : l.accessed_at.isNone <;> simp [h]

/-- Writing the audit row never changes `is_active`. -/
theorem audit_fst_is_active (l : MagicLink) (req : Request) (e : Option ViewError)
    (ts : Option Nat) (now : Nat) :
    (l.audit req e ts now).1.is_active = l.is_active := by
  unfold MagicLink.audit
  by_cases h : l.accessed_at.isNone <;> simp [h]

/-- The audit row's timestamp is the forced value, or `now` when none is given. -/
theorem audit_snd_timestamp (l : MagicLink) (req : Request) (e : Option ViewError)
    (ts : Option Nat) (now : Nat) :
    (l.audit req e ts now).2.timestamp = ts.getD now := by
  unfold MagicLink.audit
  by_cases h : l.accessed_at.isNone <;> simp [h]

/-- An audit row recorded with no error has an empty error string. -/
theorem audit_snd_error_none (l : MagicLink) (req : Request) (ts : Option Nat) (now : Nat) :
    (l.audit req none ts now).2.error = "" := by
  unfold MagicLink.audit
  by_cases h : l.accessed_at.isNone <;> simp [h]

/-- Specification-side description of `validate` from spec section 4.1, for
claim C2: evaluate `isActive`, `hasExpired`, `hasBeenUsed` in that priority
order, fail fast with the first violated condition, succeed iff all pass. -/
def validateSpec (l : MagicLink) (now : Nat) : Except LinkError Unit :=
  if l.is_active = false then .error .InactiveLink
  else if optBoolTruthy (l.has_expired now) = true then .error .ExpiredLink
  else if l.has_been_used = true then .error .UsedLink
  else .ok ()

/-- The source `validate` agrees with the three-check fail-fast description:
the belt-and-braces `InvalidLink` branch never changes the result. -/
theorem validate_eq_spec_aux (l : MagicLink) (now : Nat) :
    l.validate now = validateSpec l now := by
  unfold MagicLink.validate validateSpec MagicLink.is_valid
  cases ha : l.is_active <;>
    cases hu : l.has_been_used <;>
      cases he : optBoolTruthy (l.has_expired now) <;>
        simp [ha, hu, he]

/-- Claim C1: `is_valid` is true iff `is_active` is true, `has_expired` is
not `True` (it may be `False` or `None`), and `has_been_used` is false. -/
theorem is_valid_iff (l : MagicLink) (now : Nat) :
    l.is_valid now = true ↔
      (l.is_active = true ∧ l.has_expired now ≠ some true ∧ l.has_been_used = false) := by
  unfold MagicLink.is_valid
  cases h : l.has_expired now with
  | none => simp [h, optBoolTruthy]
  | some b => cases b <;> simp [h, optBoolTruthy]

/-- Claim C2: `validate` checks `is_active`, `has_expired`, `has_been_used`
in that priority order, fails with the first violated condition
(`InactiveLink`, then `ExpiredLink`, then `UsedLink`), and succeeds exactly
when all three checks pass. -/
theorem validate_priority_order (l : MagicLink) (now : Nat) :
    l.validate now = validateSpec l now :=
  validate_eq_spec_aux l now

/-- Claim C9: the generic `InvalidLink` fallback branch of `validate` is
unreachable, and whenever the three explicit checks pass `is_valid` is true. -/
theorem invalid_fallback_unreachable (l : MagicLink) (now : Nat) :
    l.validate now ≠ Except.error LinkError.InvalidLink ∧
    (l.is_active = true → optBoolTruthy (l.has_expired now) = false →
      l.has_been_used = false → l.is_valid now = true) := by
  constructor
  · rw [validate_eq_spec_aux]
    unfold validateSpec
    split
    · simp
    · split
      · simp
      · split <;> simp
  · intro ha he hu
    unfold MagicLink.is_valid
    simp [ha, he, hu]

/-- Claim C9 witness at a concrete valid link. -/
theorem invalid_fallback_unreachable_witness :
    (newMagicLink 1 0).is_active = true ∧
    optBoolTruthy ((newMagicLink 1 0).has_expired 5) = false ∧
    (newMagicLink 1 0).has_been_used = false ∧
    (newMagicLink 1 0).is_valid 5 = true :=
  ⟨rfl, rfl, rfl,
   (invalid_fallback_unreachable (newMagicLink 1 0) 5).2 rfl rfl rfl⟩

/-- Claim C5: `authorize` denies exactly the requester who is already
authenticated as a different user; anonymous requesters and the link's own
user are always authorized. -/
theorem authorize_denied_iff (l : MagicLink) (u : Requester) :
    (l.authorize u = .error .PermissionDenied ↔
      (u.is_authenticated = true ∧ u.userId ≠ l.userId)) ∧
    ((u.is_authenticated = false ∨ u.userId = l.userId) → l.authorize u = .ok ()) := by
  unfold MagicLink.authorize
  cases ha : u.is_authenticated <;> by_cases he : u.userId = l.userId <;> simp [ha, he]

/-- Claim C5 witness: an anonymous requester is authorized on a concrete link. -/
theorem authorize_denied_iff_witness :
    ((false = false ∨ (2 : Nat) = 1) →
      (newMagicLink 1 0).authorize { is_authenticated := false, userId := 2 } = .ok ()) :=
  (authorize_denied_iff (newMagicLink 1 0) { is_authenticated := false, userId := 2 }).2

/-- A concrete active, unused link expiring at time 5, used in witnesses. -/
def sampleLink : MagicLink :=
  { userId := 1
    redirect_to := "/"
    created_at := 0
    expires_at := some 5
    accessed_at := none
    logged_in_at := none
    is_active := true }

/-- Claim C6 counterexample: at the instant `now = expires_at` exactly, the
link has NOT expired (`expires_at < now` is strict) and is still valid, so
the claimed `now >= expires_at` boundary is wrong at equality. -/
theorem expiry_boundary_counterexample :
    sampleLink.expires_at = some 5 ∧
    sampleLink.has_expired 5 = some false ∧
    sampleLink.is_valid 5 = true := by
  refine ⟨rfl, ?_, ?_⟩ <;> decide

/-- Claim C6 as amended: with `expires_at` set, the link counts as expired
exactly when `now` is strictly past `expires_at`; at `now = expires_at` it
is not yet expired, and strict expiry makes the link invalid. -/
theorem expiry_is_strict (l : MagicLink) (t now : Nat) (h : l.expires_at = some t) :
    (optBoolTruthy (l.has_expired now) = true ↔ t < now) ∧
    (now = t → l.has_expired now = some false) ∧
    (t < now → l.is_valid now = false) := by
  refine ⟨?_, ?_, ?_⟩
  · unfold MagicLink.has_expired
    rw [h]
    simp [optBoolTruthy]
  · intro hnow
    unfold MagicLink.has_expired
    rw [h, hnow]
    simp
  · intro hlt
    unfold MagicLink.is_valid MagicLink.has_expired
    rw [h]
    simp [optBoolTruthy, hlt]

/-- Claim C6 amended witness: the boundary instant and one instant later. -/
theorem expiry_is_strict_witness :
    sampleLink.expires_at = some 5 ∧
    (5 = 5 → sampleLink.has_expired 5 = some false) ∧
    (5 < 6 → sampleLink.is_valid 6 = false) :=
  ⟨rfl,
   (expiry_is_strict sampleLink 5 5 rfl).2.1,
   (expiry_is_strict sampleLink 5 6 rfl).2.2⟩

/-- Claim C10 counterexample: the default expiry interval is 60 seconds,
not 300, so a fresh default link expires at `created_at + 60`. -/
theorem default_expiry_counterexample :
    DEFAULT_EXPIRY = 60 ∧
    DEFAULT_EXPIRY ≠ 300 ∧
    (newMagicLink 1 0).expires_at = some ((newMagicLink 1 0).created_at + 60) ∧
    (newMagicLink 1 0).expires_at ≠ some ((newMagicLink 1 0).created_at + 300) := by
  refine ⟨rfl, ?_, rfl, ?_⟩ <;> decide

/-- Claim C10 as amended: a default-created link has
`expires_at = created_at + DEFAULT_EXPIRY`, and that default is 60 seconds. -/
theorem expires_at_default (userId now : Nat) :
    (newMagicLink userId now).expires_at =
      some ((newMagicLink userId now).created_at + DEFAULT_EXPIRY) ∧
    DEFAULT_EXPIRY = 60 := by
  exact ⟨rfl, rfl⟩

/-- Claim C7: the first `audit` call on a link (with `accessed_at` still
unset) sets `accessed_at` to the created row's timestamp; any later call
(with `accessed_at` already set) leaves it unchanged. -/
theorem audit_accessed_at_first_only (l : MagicLink) (req : Request)
    (e : Option ViewError) (ts : Option Nat) (now : Nat) :
    (l.accessed_at = none →
      (l.audit req e ts now).1.accessed_at = some (l.audit req e ts now).2.timestamp) ∧
    (∀ a : Nat, l.accessed_at = some a → (l.audit req e ts now).1.accessed_at = some a) := by
  constructor
  · intro h
    unfold MagicLink.audit
    simp [h]
  · intro a h
    unfold MagicLink.audit
    simp [h]

/-- Claim C7 witness: a first and a second audit call on a concrete link. -/
theorem audit_accessed_at_first_only_witness :
    (sampleLink.accessed_at = none ∧
      (sampleLink.audit
          { http_method := "GET", user := { is_authenticated := false, userId := 2 },
            remote_addr := "127.0.0.1", ua_string := "UA", session_key := "" }
          none none 3).1.accessed_at =
        some (sampleLink.audit
          { http_method := "GET", user := { is_authenticated := false, userId := 2 },
            remote_addr := "127.0.0.1", ua_string := "UA", session_key := "" }
          none none 3).2.timestamp) :=
  ⟨rfl,
   (audit_accessed_at_first_only sampleLink
     { http_method := "GET", user := { is_authenticated := false, userId := 2 },
       remote_addr := "127.0.0.1", ua_string := "UA", session_key := "" }
     none none 3).1 rfl⟩

/-- Unfolding lemma: the link stored by `recordAudit`. -/
theorem recordAudit_link (s : St) (req : Request) (e : Option ViewError)
    (ts : Option Nat) (now : Nat) :
    (recordAudit s req e ts now).link = (s.link.audit req e ts now).1 :=
  rfl

/-- Unfolding lemma: the log stored by `recordAudit`. -/
theorem recordAudit_log (s : St) (req : Request) (e : Option ViewError)
    (ts : Option Nat) (now : Nat) :
    (recordAudit s req e ts now).log = s.log ++ [(s.link.audit req e ts now).2] :=
  rfl

/-- Every run of the post body either audits a rejection on the original
link, raises out of the transaction, or commits the full consume sequence. -/
theorem postBody_cases (s : St) (req : Request) (now : Nat) (fail : Option Step) :
    (∃ e ts r, postBody s req now fail = .ok (recordAudit s req e ts now, r)) ∨
    (postBody s req now fail = .error ()) ∨
    (postBody s req now fail =
      .ok (recordAudit { link := (s.link.login now).disable, log := s.log } req none
            ((s.link.login now).disable).logged_in_at now,
          .redirect s.link.redirect_to)) := by
  unfold postBody
  split
  · exact Or.inl ⟨_, _, _, rfl⟩
  · split
    · exact Or.inl ⟨_, _, _, rfl⟩
    · split
      · exact Or.inr (Or.inl rfl)
      · split
        · exact Or.inr (Or.inl rfl)
        · split
          · exact Or.inr (Or.inl rfl)
          · exact Or.inr (Or.inr rfl)

/-- Claim C3: when `validate` and `authorize` both succeed, the consume
request logs the user in at `now`, disables the link, appends exactly one
success audit row whose timestamp equals `logged_in_at`, and redirects to
the link's `redirect_to`; if any step of the transaction body raises, the
stored state is left exactly as it was. -/
theorem post_consume_atomic (s : St) (req : Request) (now : Nat)
    (hv : s.link.validate now = .ok ())
    (ha : s.link.authorize req.user = .ok ()) :
    (postView s req now none).1.link.logged_in_at = some now ∧
    (postView s req now none).1.link.is_active = false ∧
    (∃ entry : MagicLinkUse,
      (postView s req now none).1.log = s.log ++ [entry] ∧
      entry.timestamp = now ∧
      entry.error = "" ∧
      some entry.timestamp = (postView s req now none).1.link.logged_in_at) ∧
    (postView s req now none).2 = .redirect s.link.redirect_to ∧
    (∀ st : Step, postView s req now (some st) = (s, .fault)) := by
  have hbody : postBody s req now none =
      .ok (recordAudit { link := (s.link.login now).disable, log := s.log } req none
            ((s.link.login now).disable).logged_in_at now,
          .redirect s.link.redirect_to) := by
    unfold postBody
    rw [hv, ha]
    simp
  have hview : postView s req now none =
      (recordAudit { link := (s.link.login now).disable, log := s.log } req none
        ((s.link.login now).disable).logged_in_at now,
       .redirect s.link.redirect_to) := by
    unfold postView
    rw [hbody]
  have hlog : ((s.link.login now).disable).logged_in_at = some now := rfl
  refine ⟨?_, ?_, ?_, ?_, ?_⟩
  · rw [hview]
    show (recordAudit { link := (s.link.login now).disable, log := s.log } req none
        ((s.link.login now).disable).logged_in_at now).link.logged_in_at = some now
    rw [recordAudit_link, audit_fst_logged_in_at]
    rfl
  · rw [hview]
    show (recordAudit { link := (s.link.login now).disable, log := s.log } req none
        ((s.link.login now).disable).logged_in_at now).link.is_active = false
    rw [recordAudit_link, audit_fst_is_active]
    rfl
  · refine ⟨(((s.link.login now).disable).audit req none
        (((s.link.login now).disable).logged_in_at) now).2, ?_, ?_, ?_, ?_⟩
    · rw [hview]
      exact recordAudit_log _ req none _ now
    · rw [audit_snd_timestamp, hlog]
      rfl
    · exact audit_snd_error_none _ req _ now
    · rw [audit_snd_timestamp, hlog, hview]
      show some now = (recordAudit { link := (s.link.login now).disable, log := s.log } req
          none ((s.link.login now).disable).logged_in_at now).link.logged_in_at
      rw [recordAudit_link, audit_fst_logged_in_at]
      rfl
  · rw [hview]
  · intro st
    unfold postView postBody
    rw [hv, ha]
    cases st <;> simp

/-- An anonymous POST request, used in witnesses. -/
def postReq : Request :=
  { http_method := "POST"
    user := { is_authenticated := false, userId := 2 }
    remote_addr := "127.0.0.1"
    ua_string := "UA"
    session_key := "" }

/-- Claim C3 witness: a fresh link consumed at time 5, and the rollback of a
failing login step. -/
theorem post_consume_atomic_witness :
    (initSt 1 0).link.validate 5 = .ok () ∧
    (initSt 1 0).link.authorize postReq.user = .ok () ∧
    (postView (initSt 1 0) postReq 5 none).1.link.logged_in_at = some 5 ∧
    postView (initSt 1 0) postReq 5 (some Step.loginStep) = (initSt 1 0, Response.fault) :=
  ⟨rfl, rfl,
   (post_consume_atomic (initSt 1 0) postReq 5 rfl rfl).1,
   (post_consume_atomic (initSt 1 0) postReq 5 rfl rfl).2.2.2.2 Step.loginStep⟩

/-- Auditing preserves the consumed-implies-inactive implication. -/
theorem recordAudit_keeps_invariant (s : St) (req : Request) (e : Option ViewError)
    (ts : Option Nat) (now : Nat)
    (h : s.link.logged_in_at.isSome = true → s.link.is_active = false) :
    (recordAudit s req e ts now).link.logged_in_at.isSome = true →
      (recordAudit s req e ts now).link.is_active = false := by
  rw [recordAudit_link, audit_fst_logged_in_at, audit_fst_is_active]
  exact h

/-- Every core operation preserves the consumed-implies-inactive implication. -/
theorem stepOp_keeps_invariant (s : St) (op : Op)
    (h : s.link.logged_in_at.isSome = true → s.link.is_active = false) :
    (stepOp s op).link.logged_in_at.isSome = true →
      (stepOp s op).link.is_active = false := by
  cases op with
  | get req now =>
      show (getView s req now).1.link.logged_in_at.isSome = true →
        (getView s req now).1.link.is_active = false
      unfold getView
      split
      · exact recordAudit_keeps_invariant s req _ none now h
      · split
        · exact recordAudit_keeps_invariant s req _ none now h
        · exact recordAudit_keeps_invariant s req none none now h
  | post req now fail =>
      show (postView s req now fail).1.link.logged_in_at.isSome = true →
        (postView s req now fail).1.link.is_active = false
      rcases postBody_cases s req now fail with ⟨e, ts, r, hb⟩ | hb | hb
      · unfold postView
        rw [hb]
        exact recordAudit_keeps_invariant s req e ts now h
      · unfold postView
        rw [hb]
        exact h
      · unfold postView
        rw [hb]
        intro _
        show (recordAudit { link := (s.link.login now).disable, log := s.log } req none
            ((s.link.login now).disable).logged_in_at now).link.is_active = false
        rw [recordAudit_link, audit_fst_is_active]
        rfl
  | kill =>
      intro _
      rfl
  | record req e ts now =>
      exact recordAudit_keeps_invariant s req e ts now h

/-- Any sequence of core operations preserves consumed-implies-inactive. -/
theorem runOps_keeps_invariant (ops : List Op) (s : St)
    (h : s.link.logged_in_at.isSome = true → s.link.is_active = false) :
    (runOps s ops).link.logged_in_at.isSome = true →
      (runOps s ops).link.is_active = false := by
  induction ops generalizing s with
  | nil => exact h
  | cons op rest ih => exact ih (stepOp s op) (stepOp_keeps_invariant s op h)

/-- Claim C4: in every state reachable from a freshly issued link by core
operations, a set `logged_in_at` forces `is_active = false`; the consume
operation itself (login immediately followed by disable inside one
transaction) establishes the invariant, with no separate check; in
particular the link is never valid again at any later instant. -/
theorem consumed_links_inactive (userId now0 : Nat) (ops : List Op)
    (h : (runOps (initSt userId now0) ops).link.logged_in_at.isSome = true) :
    (runOps (initSt userId now0) ops).link.is_active = false ∧
    ∀ t : Nat, (runOps (initSt userId now0) ops).link.is_valid t = false := by
  have hact : (runOps (initSt userId now0) ops).link.is_active = false :=
    runOps_keeps_invariant ops (initSt userId now0)
      (fun hl => by simp [initSt, newMagicLink] at hl) h
  refine ⟨hact, fun t => ?_⟩
  unfold MagicLink.is_valid
  rw [hact]
  rfl

/-- Claim C4 witness: one successful consume at time 5 on a fresh link. -/
theorem consumed_links_inactive_witness :
    (runOps (initSt 1 0) [Op.post postReq 5 none]).link.logged_in_at.isSome = true ∧
    (runOps (initSt 1 0) [Op.post postReq 5 none]).link.is_active = false :=
  ⟨rfl, (consumed_links_inactive 1 0 [Op.post postReq 5 none] rfl).1⟩

/-- Once `is_active` is false, no core operation ever makes it true again. -/
theorem stepOp_keeps_inactive (s : St) (op : Op) (h : s.link.is_active = false) :
    (stepOp s op).link.is_active = false := by
  cases op with
  | get req now =>
      show (getView s req now).1.link.is_active = false
      unfold getView
      split
      · exact (audit_fst_is_active s.link req _ none now).trans h
      · split
        · exact (audit_fst_is_active s.link req _ none now).trans h
        · exact (audit_fst_is_active s.link req none none now).trans h
  | post req now fail =>
      show (postView s req now fail).1.link.is_active = false
      rcases postBody_cases s req now fail with ⟨e, ts, r, hb⟩ | hb | hb
      · unfold postView
        rw [hb]
        exact (audit_fst_is_active s.link req e ts now).trans h
      · unfold postView
        rw [hb]
        exact h
      · unfold postView
        rw [hb]
        show (recordAudit { link := (s.link.login now).disable, log := s.log } req none
            ((s.link.login now).disable).logged_in_at now).link.is_active = false
        rw [recordAudit_link, audit_fst_is_active]
        rfl
  | kill =>
      rfl
  | record req e ts now =>
      exact (audit_fst_is_active s.link req e ts now).trans h

/-- A disabled link stays disabled across any sequence of core operations. -/
theorem runOps_keeps_inactive (ops : List Op) (s : St) (h : s.link.is_active = false) :
    (runOps s ops).link.is_active = false := by
  induction ops generalizing s with
  | nil => exact h
  | cons op rest ih => exact ih (stepOp s op) (stepOp_keeps_inactive s op h)

/-- Claim C8: `disable` sets `is_active` to false, is idempotent, and after
a `disable` no sequence of core operations ever makes the link active again. -/
theorem disable_permanent (l : MagicLink) (log : List MagicLinkUse) (ops : List Op) :
    (l.disable).is_active = false ∧
    (l.disable).disable = l.disable ∧
    (runOps { link := l.disable, log := log } ops).link.is_active = false :=
  ⟨rfl, rfl, runOps_keeps_inactive ops { link := l.disable, log := log } rfl⟩
